import Mathlib

/-!
Shallow embedding of the BTC/USDT day-trading engine (`main.py`, class
`BTCDayTrader`) for checking the natural-language specification.

Modelling choices:
- Monetary quantities and indicator values are rationals (the code uses
  Python floats; none of the claims depends on float rounding behaviour,
  and the one rounding operation, `round(x, 6)`, is modelled by `round6`).
- A candle row carries the indicator columns that the signal detectors
  read (`check_buy_signals` / `check_sell_signals` only access `close`,
  `ema20`, `ema50`, `rsi`, `macd`, `macd_signal`, `bb_high`, `bb_low`).
- The Exchange Connector (ccxt) is a record of fallible operations: a
  call that returns `none` models the call raising an exception; the
  `raised` flag of a result records that an exception was caught by the
  surrounding `try/except` block.
- `datetime.date.today()` is modelled by an integer day number passed in
  as a parameter `today`.
- Python truthiness of `self.entry_price` (`None` and `0.0` are falsy)
  is modelled by `priceTruthy`.
-/

namespace TradingBot

/-- One row of the indicator DataFrame: the columns that the signal
detectors read.  (`main.py` lines 113-142 build these columns; the
detectors treat them as given data, and so do we.) -/
structure Row where
  close : ℚ
  ema20 : ℚ
  ema50 : ℚ
  rsi : ℚ
  macd : ℚ
  macd_signal : ℚ
  bb_high : ℚ
  bb_low : ℚ
deriving DecidableEq, Repr

/-- The mutable trading state of `BTCDayTrader` (`main.py` lines 58-63). -/
structure TradingState where
  in_position : Bool
  entry_price : Option ℚ
  position_size : Option ℚ
  daily_trades : ℕ
  last_trade_date : Option ℤ
deriving DecidableEq, Repr

/-- Configuration read once at startup (`main.py` lines 50-56). -/
structure Config where
  risk_per_trade : ℚ
  max_daily_trades : ℕ
  leverage : ℚ
  take_profit_pct : ℚ
  stop_loss_pct : ℚ
deriving DecidableEq, Repr

/-- The initial trading state set in `__init__` (`main.py` lines 58-63). -/
def initState : TradingState :=
  { in_position := false
    entry_price := none
    position_size := none
    daily_trades := 0
    last_trade_date := none }

/-- Python truthiness of the `entry_price` field: `None` and `0.0` are
falsy, every other float is truthy (used in `self.entry_price and ...`
at `main.py` lines 201, 204, 382). -/
def priceTruthy : Option ℚ → Bool
  | none => false
  | some p => decide (p ≠ 0)

/-- The last two rows of the DataFrame: `df.iloc[-2]` (previous) and
`df.iloc[-1]` (latest), when they exist. -/
def lastTwo (df : List Row) : Option (Row × Row) :=
  match df.reverse with
  | last :: prev :: _ => some (prev, last)
  | _ => none

/-- Buy condition 1 (`main.py` line 157): EMA20 crosses above EMA50. -/
def buy_ema_crossover (prev last : Row) : Bool :=
  decide (prev.ema20 ≤ prev.ema50 ∧ last.ema20 > last.ema50)

/-- Buy condition 2 (`main.py` line 160): RSI crosses above 30. -/
def buy_rsi_condition (prev last : Row) : Bool :=
  decide (prev.rsi ≤ 30 ∧ last.rsi > 30)

/-- Buy condition 3 (`main.py` line 163): MACD crosses above its signal
line. -/
def buy_macd_crossover (prev last : Row) : Bool :=
  decide (prev.macd ≤ prev.macd_signal ∧ last.macd > last.macd_signal)

/-- Buy condition 4 (`main.py` line 166): close within 1 percent of the
lower Bollinger band. -/
def buy_bollinger_support (last : Row) : Bool :=
  decide (last.close ≤ last.bb_low * (101 / 100))

/-- `signal_count` for the buy side (`main.py` line 169). -/
def buy_signal_count (prev last : Row) : ℕ :=
  (buy_ema_crossover prev last).toNat + (buy_rsi_condition prev last).toNat
    + (buy_macd_crossover prev last).toNat + (buy_bollinger_support last).toNat

/-- `check_buy_signals` (`main.py` lines 144-175).  Returns `False` when
the DataFrame is missing, empty or shorter than 50 rows; otherwise fires
iff at least 2 of the 4 conditions hold on the last two rows. -/
def check_buy_signals (df : List Row) : Bool :=
  if df.length < 50 then false
  else
    match lastTwo df with
    | none => false
    | some (prev, last) => decide (2 ≤ buy_signal_count prev last)

/-- Sell condition 1 (`main.py` line 189): EMA20 crosses below EMA50. -/
def sell_ema_crossover (prev last : Row) : Bool :=
  decide (prev.ema20 ≥ prev.ema50 ∧ last.ema20 < last.ema50)

/-- Sell condition 2 (`main.py` line 192): RSI crosses above 70. -/
def sell_rsi_condition (prev last : Row) : Bool :=
  decide (prev.rsi ≤ 70 ∧ last.rsi > 70)

/-- Sell condition 3 (`main.py` line 195): MACD crosses below its signal
line. -/
def sell_macd_crossover (prev last : Row) : Bool :=
  decide (prev.macd ≥ prev.macd_signal ∧ last.macd < last.macd_signal)

/-- Sell condition 4 (`main.py` line 198): close within 1 percent of the
upper Bollinger band. -/
def sell_bollinger_resistance (last : Row) : Bool :=
  decide (last.close ≥ last.bb_high * (99 / 100))

/-- `signal_count` for the sell side (`main.py` line 207). -/
def sell_signal_count (prev last : Row) : ℕ :=
  (sell_ema_crossover prev last).toNat + (sell_rsi_condition prev last).toNat
    + (sell_macd_crossover prev last).toNat + (sell_bollinger_resistance last).toNat

/-- `check_sell_signals` (`main.py` lines 177-219).  Returns `False`
when the DataFrame is missing, empty or shorter than 50 rows, or when
not in position.  Otherwise take-profit is checked first, then
stop-loss, then the 2-of-4 technical vote. -/
def check_sell_signals (cfg : Config) (s : TradingState) (df : List Row) : Bool :=
  if df.length < 50 ∨ s.in_position = false then false
  else
    match lastTwo df with
    | none => false
    | some (prev, last) =>
      let take_profit := priceTruthy s.entry_price &&
        decide (last.close ≥ s.entry_price.getD 0 * (1 + cfg.take_profit_pct))
      let stop_loss := priceTruthy s.entry_price &&
        decide (last.close ≤ s.entry_price.getD 0 * (1 - cfg.stop_loss_pct))
      if take_profit then true
      else if stop_loss then true
      else decide (2 ≤ sell_signal_count prev last)

/-- The parts of the `fetch_balance()` result that the engine reads
(`main.py` lines 275-286 and 362).  `usdt_free` is
`balance['USDT']['free']` when the key `USDT` is present; `total_usdt`
is the fallback `balance['total']['USDT']` when that alternative
structure is present; `btc_free` is `balance['BTC']['free']` when the
key `BTC` is present.  A missing key is `none`. -/
structure Balance where
  usdt_free : Option ℚ
  total_usdt : Option ℚ
  btc_free : Option ℚ
deriving DecidableEq, Repr

/-- The USDT balance resolution of `main.py` lines 275-286: prefer
`balance['USDT']['free']`, fall back to `balance['total']['USDT']`,
default to 0. -/
def usdtBalance (b : Balance) : ℚ :=
  match b.usdt_free with
  | some v => v
  | none =>
    match b.total_usdt with
    | some v => v
    | none => 0

/-- One tick of behaviour of the Exchange Connector (ccxt exchange
object).  A field equal to `none` models the corresponding call raising
an exception. -/
structure Exchange where
  fetch_balance : Option Balance
  fetch_ticker : Option ℚ
  fetch_ohlcv : Option (List Row)
  create_market_buy_order : ℚ → Option Unit
  create_market_sell_order : ℚ → Option Unit

/-- Side of a submitted market order. -/
inductive Side where
  | buy
  | sell
deriving DecidableEq, Repr

/-- A market-order submission: the side and the `amount` argument passed
to the connector (`main.py` lines 332-335 and 372-375; for buys the
amount is the USDT notional, for sells the BTC quantity). -/
structure OrderReq where
  side : Side
  amount : ℚ
deriving DecidableEq, Repr

/-- Result of `execute_buy`: the trading state afterwards, the order
submissions attempted, and whether an exception was caught by the
`try/except` block. -/
structure BuyResult where
  state : TradingState
  orders : List OrderReq
  raised : Bool
deriving DecidableEq, Repr

/-- Result of `execute_sell`: the trading state afterwards, the order
submissions attempted, the realized profit-and-loss that was computed
(logged) if any, and whether an exception was caught. -/
structure SellResult where
  state : TradingState
  orders : List OrderReq
  pnl_usd : Option ℚ
  raised : Bool
deriving DecidableEq, Repr

/-- Result of `run_trading_cycle`: state afterwards and the orders
submitted during the tick. -/
structure CycleResult where
  state : TradingState
  orders : List OrderReq
deriving DecidableEq, Repr

/-- The fixed minimum position size of 10 USDT (`main.py` line 307). -/
def min_position_size : ℚ := 10

/-- Python `round(x, 6)` (`main.py` line 323), modelled as rounding to
the nearest multiple of 10 ^ (-6).  (Python rounds ties to even on the
underlying binary float; no claim depends on tie behaviour.) -/
def round6 (q : ℚ) : ℚ := (round (q * 1000000) : ℤ) / 1000000

/-- The sized USDT notional of `main.py` lines 299-314:
`risk_amount = usdt_balance * risk_per_trade`, then
`position_size_usd = risk_amount * leverage`, then clamp up to the
10 USDT minimum when the balance itself is at least the minimum. -/
def sized_notional (cfg : Config) (b : ℚ) : ℚ :=
  if b * cfg.risk_per_trade * cfg.leverage < min_position_size then
    if min_position_size ≤ b then min_position_size
    else b * cfg.risk_per_trade * cfg.leverage
  else b * cfg.risk_per_trade * cfg.leverage

/-- `execute_buy` (`main.py` lines 257-351).  Guards: already in
position, or daily trade cap reached, return unchanged.  Inside the
`try` block: fetch the balance, resolve the USDT balance, abort on a
non-positive balance; fetch the ticker price; size the position as
balance x risk x leverage, clamp up to the 10 USDT minimum when the
balance allows it; abort on a non-positive price; abort when the sized
notional is still under 10 USDT; submit the market buy order for the
USDT notional and only then commit the state.  Any exception from a
connector call is caught and leaves the state unchanged. -/
def execute_buy (cfg : Config) (ex : Exchange) (s : TradingState) (today : ℤ) : BuyResult :=
  if s.in_position then ⟨s, [], false⟩
  else if cfg.max_daily_trades ≤ s.daily_trades then ⟨s, [], false⟩
  else
    match ex.fetch_balance with
    | none => ⟨s, [], true⟩
    | some balance =>
      if usdtBalance balance ≤ 0 then ⟨s, [], false⟩
      else
        match ex.fetch_ticker with
        | none => ⟨s, [], true⟩
        | some current_price =>
          if current_price ≤ 0 then ⟨s, [], false⟩
          else if sized_notional cfg (usdtBalance balance) < 10 then ⟨s, [], false⟩
          else
            match ex.create_market_buy_order (sized_notional cfg (usdtBalance balance)) with
            | none => ⟨s, [⟨Side.buy, sized_notional cfg (usdtBalance balance)⟩], true⟩
            | some _ =>
              ⟨{ in_position := true
                 entry_price := some current_price
                 position_size :=
                   some (round6 (sized_notional cfg (usdtBalance balance) / current_price))
                 daily_trades := s.daily_trades + 1
                 last_trade_date := some today },
               [⟨Side.buy, sized_notional cfg (usdtBalance balance)⟩], false⟩

/-- `execute_sell` (`main.py` lines 353-396).  Guard: not in position,
return unchanged.  Inside the `try` block: fetch the balance, read the
free BTC balance (0 when the key is missing), take the minimum of the
recorded position size and the free balance (`min(None, x)` raises a
TypeError, caught like any connector failure), abort when that minimum
is non-positive; submit the market sell order; fetch the ticker for the
exit price; compute the profit-and-loss when `entry_price` is truthy;
then clear the position state.  Any exception is caught and leaves the
state unchanged. -/
def execute_sell (ex : Exchange) (s : TradingState) : SellResult :=
  if s.in_position = false then ⟨s, [], none, false⟩
  else
    match ex.fetch_balance with
    | none => ⟨s, [], none, true⟩
    | some balance =>
      match s.position_size with
      | none => ⟨s, [], none, true⟩
      | some ps =>
        if min ps (balance.btc_free.getD 0) ≤ 0 then ⟨s, [], none, false⟩
        else
          match ex.create_market_sell_order (min ps (balance.btc_free.getD 0)) with
          | none => ⟨s, [⟨Side.sell, min ps (balance.btc_free.getD 0)⟩], none, true⟩
          | some _ =>
            match ex.fetch_ticker with
            | none => ⟨s, [⟨Side.sell, min ps (balance.btc_free.getD 0)⟩], none, true⟩
            | some exit_price =>
              ⟨{ s with in_position := false, entry_price := none, position_size := none },
               [⟨Side.sell, min ps (balance.btc_free.getD 0)⟩],
               if priceTruthy s.entry_price then
                 some (min ps (balance.btc_free.getD 0) * (exit_price - s.entry_price.getD 0))
               else none,
               false⟩

/-- `close_all_positions` (`main.py` lines 398-402): sell when in
position, otherwise do nothing. -/
def close_all_positions (ex : Exchange) (s : TradingState) : SellResult :=
  if s.in_position then execute_sell ex s else ⟨s, [], none, false⟩

/-- `reset_daily_counters` (`main.py` lines 404-410): when the stored
date differs from today (including when it is unset), zero the daily
trade counter and stamp today; otherwise do nothing. -/
def reset_daily_counters (s : TradingState) (today : ℤ) : TradingState :=
  if s.last_trade_date ≠ some today then
    { s with daily_trades := 0, last_trade_date := some today }
  else s

/-- The body of `run_trading_cycle` after the daily counter reset
(`main.py` lines 228-255): fetch candles and indicators (a fetch
failure yields `None` and ends the tick, as does an empty DataFrame);
in position, evaluate the sell path; otherwise, under the daily cap,
evaluate the buy path. -/
def cycle_body (cfg : Config) (ex : Exchange) (s1 : TradingState) (today : ℤ) : CycleResult :=
  match ex.fetch_ohlcv with
  | none => ⟨s1, []⟩
  | some df =>
    if df.isEmpty then ⟨s1, []⟩
    else if s1.in_position then
      if check_sell_signals cfg s1 df then
        let r := execute_sell ex s1
        ⟨r.state, r.orders⟩
      else ⟨s1, []⟩
    else if s1.daily_trades < cfg.max_daily_trades then
      if check_buy_signals df then
        let r := execute_buy cfg ex s1 today
        ⟨r.state, r.orders⟩
      else ⟨s1, []⟩
    else ⟨s1, []⟩

/-- `run_trading_cycle` (`main.py` lines 221-255): reset the daily
counters first, then run the tick body. -/
def run_trading_cycle (cfg : Config) (ex : Exchange) (s : TradingState) (today : ℤ) : CycleResult :=
  cycle_body cfg ex (reset_daily_counters s today) today

/-- The co-null invariant of the spec data model: `entry_price` and
`position_size` are both set iff `in_position` is true. -/
def coNull (s : TradingState) : Prop :=
  (s.entry_price.isSome = true ∧ s.position_size.isSome = true) ↔ s.in_position = true

/-- The default configuration of `main.py` lines 50-56: risk 5 percent,
3 daily trades, leverage 3, take-profit 3 percent, stop-loss 1 percent. -/
def cfg0 : Config :=
  { risk_per_trade := 1 / 20
    max_daily_trades := 3
    leverage := 3
    take_profit_pct := 3 / 100
    stop_loss_pct := 1 / 100 }

/-- A connector tick on which every call raises. -/
def ex_fail : Exchange :=
  { fetch_balance := none
    fetch_ticker := none
    fetch_ohlcv := none
    create_market_buy_order := fun _ => none
    create_market_sell_order := fun _ => none }

/-- A healthy balance snapshot: 1000 USDT free, 0.008 BTC free. -/
def bal_ok : Balance :=
  { usdt_free := some 1000
    total_usdt := none
    btc_free := some (8 / 1000) }

/-- A tiny balance snapshot: 5 USDT free, no BTC. -/
def bal_small : Balance :=
  { usdt_free := some 5
    total_usdt := none
    btc_free := none }

/-- A connector tick on which every call succeeds: balance `bal_ok`,
ticker price 50000. -/
def ex_ok : Exchange :=
  { fetch_balance := some bal_ok
    fetch_ticker := some 50000
    fetch_ohlcv := none
    create_market_buy_order := fun _ => some ()
    create_market_sell_order := fun _ => some () }

/-- A connector tick with the tiny balance `bal_small` and price 50000. -/
def ex_small : Exchange :=
  { fetch_balance := some bal_small
    fetch_ticker := some 50000
    fetch_ohlcv := none
    create_market_buy_order := fun _ => some ()
    create_market_sell_order := fun _ => some () }

/-- A connector tick on which the sell order submission succeeds but
the subsequent `fetch_ticker` raises. -/
def ex_ticker_fail : Exchange :=
  { fetch_balance := some bal_ok
    fetch_ticker := none
    fetch_ohlcv := none
    create_market_buy_order := fun _ => some ()
    create_market_sell_order := fun _ => some () }

/-- An open long position: entered at 100 USDT with 0.01 BTC recorded. -/
def s_long : TradingState :=
  { in_position := true
    entry_price := some 100
    position_size := some (1 / 100)
    daily_trades := 1
    last_trade_date := some 0 }

/-- An indicator row on which no crossover fires. -/
def row_flat : Row :=
  { close := 0, ema20 := 0, ema50 := 0, rsi := 30, macd := 0, macd_signal := 0,
    bb_high := 0, bb_low := 1 }

/-- An indicator row satisfying the RSI-crossover and lower-band buy
conditions relative to `row_flat`. -/
def row_fire : Row :=
  { row_flat with rsi := 31 }

/-- A 50-row DataFrame whose last two rows satisfy exactly 2 of the 4
buy conditions. -/
def df50 : List Row :=
  List.replicate 49 row_flat ++ [row_fire]

/-- A 50-row DataFrame whose latest close 103 hits the take-profit
threshold of a position entered at 100 under `cfg0`. -/
def df_tp : List Row :=
  List.replicate 49 row_flat ++ [{ row_flat with close := 103 }]

/-- A 50-row DataFrame whose latest close 99 hits the stop-loss
threshold of a position entered at 100 under `cfg0`. -/
def df_sl : List Row :=
  List.replicate 49 row_flat ++ [{ row_flat with close := 99 }]

/-- Exhaustive shape analysis of `execute_buy`: a silent no-op, a
caught exception with the state unchanged, or a committed entry after a
successful order submission. -/
theorem buy_cases (cfg : Config) (ex : Exchange) (s : TradingState) (today : ℤ) :
    execute_buy cfg ex s today = ⟨s, [], false⟩ ∨
    ((execute_buy cfg ex s today).state = s ∧ (execute_buy cfg ex s today).raised = true) ∨
    (∃ amt p, ex.create_market_buy_order amt = some () ∧ ex.fetch_ticker = some p ∧
      0 < p ∧ 10 ≤ amt ∧ s.in_position = false ∧ s.daily_trades < cfg.max_daily_trades ∧
      execute_buy cfg ex s today =
        ⟨{ in_position := true
           entry_price := some p
           position_size := some (round6 (amt / p))
           daily_trades := s.daily_trades + 1
           last_trade_date := some today },
         [⟨Side.buy, amt⟩], false⟩) := by
  unfold execute_buy
  by_cases hpos : s.in_position = true
  · rw [if_pos hpos]; exact Or.inl rfl
  · rw [if_neg hpos]
    by_cases hcap : cfg.max_daily_trades ≤ s.daily_trades
    · rw [if_pos hcap]; exact Or.inl rfl
    · rw [if_neg hcap]
      cases hbal : ex.fetch_balance with
      | none => exact Or.inr (Or.inl ⟨rfl, rfl⟩)
      | some balance =>
        dsimp only
        by_cases hb0 : usdtBalance balance ≤ 0
        · rw [if_pos hb0]; exact Or.inl rfl
        · rw [if_neg hb0]
          cases htick : ex.fetch_ticker with
          | none => exact Or.inr (Or.inl ⟨rfl, rfl⟩)
          | some p =>
            dsimp only
            by_cases hp0 : p ≤ 0
            · rw [if_pos hp0]; exact Or.inl rfl
            · rw [if_neg hp0]
              by_cases hsmall : sized_notional cfg (usdtBalance balance) < 10
              · rw [if_pos hsmall]; exact Or.inl rfl
              · rw [if_neg hsmall]
                cases hord : ex.create_market_buy_order
                    (sized_notional cfg (usdtBalance balance)) with
                | none => exact Or.inr (Or.inl ⟨rfl, rfl⟩)
                | some u =>
                  dsimp only
                  refine Or.inr (Or.inr ⟨sized_notional cfg (usdtBalance balance), p,
                    ?_, rfl, not_le.mp hp0, not_lt.mp hsmall, ?_, not_le.mp hcap, rfl⟩)
                  · cases u; exact hord
                  · exact (Bool.not_eq_true _).mp hpos

/-- Exhaustive shape analysis of `execute_sell`: a silent no-op, a
caught exception with the state unchanged, or a committed exit after a
successful order submission and ticker fetch. -/
theorem sell_cases (ex : Exchange) (s : TradingState) :
    execute_sell ex s = ⟨s, [], none, false⟩ ∨
    ((execute_sell ex s).state = s ∧ (execute_sell ex s).raised = true) ∨
    (∃ amt price, ex.create_market_sell_order amt = some () ∧ ex.fetch_ticker = some price ∧
      0 < amt ∧ s.in_position = true ∧
      execute_sell ex s =
        ⟨{ s with in_position := false, entry_price := none, position_size := none },
         [⟨Side.sell, amt⟩],
         (if priceTruthy s.entry_price then
            some (amt * (price - s.entry_price.getD 0)) else none),
         false⟩) := by
  unfold execute_sell
  by_cases hpos : s.in_position = false
  · rw [if_pos hpos]; exact Or.inl rfl
  · rw [if_neg hpos]
    cases hbal : ex.fetch_balance with
    | none => exact Or.inr (Or.inl ⟨rfl, rfl⟩)
    | some balance =>
      dsimp only
      cases hps : s.position_size with
      | none => exact Or.inr (Or.inl ⟨rfl, rfl⟩)
      | some ps =>
        dsimp only
        by_cases h0 : min ps (balance.btc_free.getD 0) ≤ 0
        · rw [if_pos h0]; exact Or.inl rfl
        · rw [if_neg h0]
          cases hord : ex.create_market_sell_order (min ps (balance.btc_free.getD 0)) with
          | none => exact Or.inr (Or.inl ⟨rfl, rfl⟩)
          | some u =>
            dsimp only
            cases htick : ex.fetch_ticker with
            | none => exact Or.inr (Or.inl ⟨rfl, rfl⟩)
            | some price =>
              dsimp only
              refine Or.inr (Or.inr ⟨min ps (balance.btc_free.getD 0), price,
                ?_, rfl, not_le.mp h0, ?_, rfl⟩)
              · cases u; exact hord
              · cases hb : s.in_position with
                | false => exact absurd hb hpos
                | true => rfl

/-- With enough history, `check_buy_signals` is the 2-of-4 vote on the
last two rows. -/
theorem check_buy_eq (df : List Row) (prev last : Row)
    (hlen : 50 ≤ df.length) (hlt : lastTwo df = some (prev, last)) :
    check_buy_signals df = decide (2 ≤ buy_signal_count prev last) := by
  unfold check_buy_signals
  rw [if_neg (not_lt.mpr hlen), hlt]

/-- With enough history and an open position, `check_sell_signals` is
the take-profit check, or the stop-loss check, or the 2-of-4 vote. -/
theorem check_sell_eq (cfg : Config) (s : TradingState) (df : List Row) (prev last : Row)
    (hlen : 50 ≤ df.length) (hpos : s.in_position = true)
    (hlt : lastTwo df = some (prev, last)) :
    check_sell_signals cfg s df =
      ((priceTruthy s.entry_price &&
          decide (last.close ≥ s.entry_price.getD 0 * (1 + cfg.take_profit_pct)))
        || (priceTruthy s.entry_price &&
          decide (last.close ≤ s.entry_price.getD 0 * (1 - cfg.stop_loss_pct)))
        || decide (2 ≤ sell_signal_count prev last)) := by
  unfold check_sell_signals
  have hguard : ¬ (df.length < 50 ∨ s.in_position = false) := by
    rintro (h | h)
    · omega
    · rw [hpos] at h; cases h
  rw [if_neg hguard, hlt]
  dsimp only
  cases priceTruthy s.entry_price &&
      decide (last.close ≥ s.entry_price.getD 0 * (1 + cfg.take_profit_pct)) with
  | true => rfl
  | false =>
    cases priceTruthy s.entry_price &&
        decide (last.close ≤ s.entry_price.getD 0 * (1 - cfg.stop_loss_pct)) with
    | true => rfl
    | false => rfl

/-- The sized notional equals the single-`if` form used by the spec:
clamp to 10 exactly when the raw notional is under 10 and the balance
is at least 10. -/
theorem sized_notional_eq (cfg : Config) (b : ℚ) :
    sized_notional cfg b =
      if b * cfg.risk_per_trade * cfg.leverage < 10 ∧ 10 ≤ b then 10
      else b * cfg.risk_per_trade * cfg.leverage := by
  unfold sized_notional min_position_size
  split_ifs with h1 h2 h3 h4 h5 <;> first | rfl | tauto

/-- Normal form of `execute_buy` once the guards pass and both reads
succeed. -/
theorem execute_buy_eq (cfg : Config) (ex : Exchange) (s : TradingState) (today : ℤ)
    (bal : Balance) (p : ℚ)
    (hpos : s.in_position = false) (hcap : s.daily_trades < cfg.max_daily_trades)
    (hbal : ex.fetch_balance = some bal) (hb0 : 0 < usdtBalance bal)
    (htick : ex.fetch_ticker = some p) :
    execute_buy cfg ex s today =
      if p ≤ 0 then ⟨s, [], false⟩
      else if sized_notional cfg (usdtBalance bal) < 10 then ⟨s, [], false⟩
      else
        match ex.create_market_buy_order (sized_notional cfg (usdtBalance bal)) with
        | none => ⟨s, [⟨Side.buy, sized_notional cfg (usdtBalance bal)⟩], true⟩
        | some _ =>
          ⟨{ in_position := true
             entry_price := some p
             position_size := some (round6 (sized_notional cfg (usdtBalance bal) / p))
             daily_trades := s.daily_trades + 1
             last_trade_date := some today },
           [⟨Side.buy, sized_notional cfg (usdtBalance bal)⟩], false⟩ := by
  unfold execute_buy
  have h1 : ¬ (s.in_position = true) := by simp [hpos]
  rw [if_neg h1, if_neg (not_le.mpr hcap), hbal]
  dsimp only
  rw [if_neg (not_le.mpr hb0), htick]

/-- Normal form of `execute_sell` once the guard passes and the balance
read succeeds. -/
theorem execute_sell_eq (ex : Exchange) (s : TradingState) (bal : Balance) (ps : ℚ)
    (hpos : s.in_position = true) (hps : s.position_size = some ps)
    (hbal : ex.fetch_balance = some bal) :
    execute_sell ex s =
      if min ps (bal.btc_free.getD 0) ≤ 0 then ⟨s, [], none, false⟩
      else
        match ex.create_market_sell_order (min ps (bal.btc_free.getD 0)) with
        | none => ⟨s, [⟨Side.sell, min ps (bal.btc_free.getD 0)⟩], none, true⟩
        | some _ =>
          match ex.fetch_ticker with
          | none => ⟨s, [⟨Side.sell, min ps (bal.btc_free.getD 0)⟩], none, true⟩
          | some exit_price =>
            ⟨{ s with in_position := false, entry_price := none, position_size := none },
             [⟨Side.sell, min ps (bal.btc_free.getD 0)⟩],
             if priceTruthy s.entry_price then
               some (min ps (bal.btc_free.getD 0) * (exit_price - s.entry_price.getD 0))
             else none,
             false⟩ := by
  unfold execute_sell
  have h1 : ¬ (s.in_position = false) := by simp [hpos]
  rw [if_neg h1, hbal]
  dsimp only
  rw [hps]

/-- `reset_daily_counters` is idempotent for a fixed day. -/
theorem reset_idem (s : TradingState) (today : ℤ) :
    reset_daily_counters (reset_daily_counters s today) today =
      reset_daily_counters s today := by
  unfold reset_daily_counters
  split_ifs <;> simp_all

/-- `execute_buy` preserves the co-null invariant. -/
theorem coNull_buy (cfg : Config) (ex : Exchange) (s : TradingState) (today : ℤ)
    (h : coNull s) : coNull (execute_buy cfg ex s today).state := by
  rcases buy_cases cfg ex s today with heq | ⟨h1, _⟩ | ⟨amt, p, _, _, _, _, _, _, heq⟩
  · rw [heq]; exact h
  · rw [h1]; exact h
  · rw [heq]; simp [coNull]

/-- `execute_sell` preserves the co-null invariant. -/
theorem coNull_sell (ex : Exchange) (s : TradingState) (h : coNull s) :
    coNull (execute_sell ex s).state := by
  rcases sell_cases ex s with heq | ⟨h1, _⟩ | ⟨amt, price, _, _, _, _, heq⟩
  · rw [heq]; exact h
  · rw [h1]; exact h
  · rw [heq]; simp [coNull]

/-- `reset_daily_counters` preserves the co-null invariant. -/
theorem coNull_reset (s : TradingState) (today : ℤ) (h : coNull s) :
    coNull (reset_daily_counters s today) := by
  unfold reset_daily_counters
  split_ifs <;> simpa [coNull] using h

/-- The tick body preserves the co-null invariant. -/
theorem coNull_body (cfg : Config) (ex : Exchange) (s1 : TradingState) (today : ℤ)
    (h : coNull s1) : coNull (cycle_body cfg ex s1 today).state := by
  unfold cycle_body
  cases ex.fetch_ohlcv with
  | none => exact h
  | some df =>
    dsimp only
    split_ifs <;>
      first
        | exact h
        | exact coNull_sell ex s1 h
        | exact coNull_buy cfg ex s1 today h

/-- `execute_buy` keeps the daily counter within the cap. -/
theorem buy_daily_le (cfg : Config) (ex : Exchange) (s : TradingState) (today : ℤ)
    (h : s.daily_trades ≤ cfg.max_daily_trades) :
    (execute_buy cfg ex s today).state.daily_trades ≤ cfg.max_daily_trades := by
  rcases buy_cases cfg ex s today with heq | ⟨h1, _⟩ | ⟨amt, p, _, _, _, _, _, hcap, heq⟩
  · rw [heq]; exact h
  · rw [h1]; exact h
  · rw [heq]; exact hcap

/-- `execute_sell` never touches the daily counter. -/
theorem sell_daily_eq (ex : Exchange) (s : TradingState) :
    (execute_sell ex s).state.daily_trades = s.daily_trades := by
  rcases sell_cases ex s with heq | ⟨h1, _⟩ | ⟨amt, price, _, _, _, _, heq⟩
  · rw [heq]
  · rw [h1]
  · rw [heq]

/-- Claim C1: on every entry attempt (`execute_buy`) and exit attempt
(`execute_sell`), a connector exception is caught inside the operation
and leaves every `TradingState` field as it was before the attempt; the
state is committed only after the order-submission call has returned
successfully, never before. -/
theorem connector_failure_no_op (cfg : Config) (ex : Exchange) (s : TradingState) (today : ℤ) :
    ((execute_buy cfg ex s today).raised = true → (execute_buy cfg ex s today).state = s) ∧
    ((execute_sell ex s).raised = true → (execute_sell ex s).state = s) ∧
    ((execute_buy cfg ex s today).state ≠ s →
      (execute_buy cfg ex s today).raised = false ∧
      ∃ amt, (execute_buy cfg ex s today).orders = [⟨Side.buy, amt⟩] ∧
        ex.create_market_buy_order amt = some ()) ∧
    ((execute_sell ex s).state ≠ s →
      (execute_sell ex s).raised = false ∧
      ∃ amt, (execute_sell ex s).orders = [⟨Side.sell, amt⟩] ∧
        ex.create_market_sell_order amt = some ()) := by
  refine ⟨?_, ?_, ?_, ?_⟩
  · intro hr
    rcases buy_cases cfg ex s today with heq | ⟨h1, _⟩ | ⟨amt, p, _, _, _, _, _, _, heq⟩
    · rw [heq]
    · exact h1
    · rw [heq] at hr; cases hr
  · intro hr
    rcases sell_cases ex s with heq | ⟨h1, _⟩ | ⟨amt, price, _, _, _, _, heq⟩
    · rw [heq]
    · exact h1
    · rw [heq] at hr; cases hr
  · intro hne
    rcases buy_cases cfg ex s today with heq | ⟨h1, _⟩ | ⟨amt, p, hord, _, _, _, _, _, heq⟩
    · exact absurd (by rw [heq]) hne
    · exact absurd h1 hne
    · exact ⟨by rw [heq], amt, by rw [heq], hord⟩
  · intro hne
    rcases sell_cases ex s with heq | ⟨h1, _⟩ | ⟨amt, price, hord, _, _, _, heq⟩
    · exact absurd (by rw [heq]) hne
    · exact absurd h1 hne
    · exact ⟨by rw [heq], amt, by rw [heq], hord⟩

/-- Witness for C1: a failing connector leaves a flat state and an open
position untouched; a fully successful connector is the only way the
state changes, and then the order was submitted and returned. -/
theorem connector_failure_no_op_witness :
    ((execute_buy cfg0 ex_fail initState 0).raised = true ∧
      (execute_buy cfg0 ex_fail initState 0).state = initState) ∧
    ((execute_sell ex_fail s_long).raised = true ∧
      (execute_sell ex_fail s_long).state = s_long) ∧
    ((execute_buy cfg0 ex_ok initState 0).state ≠ initState ∧
      (execute_buy cfg0 ex_ok initState 0).raised = false ∧
      ∃ amt, (execute_buy cfg0 ex_ok initState 0).orders = [⟨Side.buy, amt⟩] ∧
        ex_ok.create_market_buy_order amt = some ()) ∧
    ((execute_sell ex_ok s_long).state ≠ s_long ∧
      (execute_sell ex_ok s_long).raised = false ∧
      ∃ amt, (execute_sell ex_ok s_long).orders = [⟨Side.sell, amt⟩] ∧
        ex_ok.create_market_sell_order amt = some ()) :=
  by
  have hbuy : execute_buy cfg0 ex_ok initState 0 =
      ⟨{ in_position := true, entry_price := some 50000, position_size := some (3 / 1000),
         daily_trades := 1, last_trade_date := some 0 }, [⟨Side.buy, 150⟩], false⟩ := by
    norm_num [execute_buy, cfg0, ex_ok, bal_ok, initState, usdtBalance, sized_notional,
      min_position_size, round6, round_eq]
  have hsell : execute_sell ex_ok s_long =
      ⟨{ in_position := false, entry_price := none, position_size := none,
         daily_trades := 1, last_trade_date := some 0 },
       [⟨Side.sell, 8 / 1000⟩], some ((8 / 1000) * (50000 - 100)), false⟩ := by
    norm_num [execute_sell, ex_ok, bal_ok, s_long, priceTruthy]
  have hbne : (execute_buy cfg0 ex_ok initState 0).state ≠ initState := by
    rw [hbuy]; simp [initState]
  have hsne : (execute_sell ex_ok s_long).state ≠ s_long := by
    rw [hsell]; simp [s_long]
  exact
    ⟨⟨by decide, (connector_failure_no_op cfg0 ex_fail initState 0).1 (by decide)⟩,
     ⟨by decide, (connector_failure_no_op cfg0 ex_fail s_long 0).2.1 (by decide)⟩,
     ⟨hbne, (connector_failure_no_op cfg0 ex_ok initState 0).2.2.1 hbne⟩,
     ⟨hsne, (connector_failure_no_op cfg0 ex_ok s_long 0).2.2.2 hsne⟩⟩

/-- Claim C6: the co-null invariant (`entry_price` and `position_size`
both set iff `in_position`) holds initially and is preserved by
`run_trading_cycle`, `execute_buy`, `execute_sell`,
`close_all_positions` and `reset_daily_counters`. -/
theorem co_null_preserved (cfg : Config) (ex : Exchange) (s : TradingState) (today : ℤ)
    (h : coNull s) :
    coNull initState ∧
    coNull (run_trading_cycle cfg ex s today).state ∧
    coNull (execute_buy cfg ex s today).state ∧
    coNull (execute_sell ex s).state ∧
    coNull (close_all_positions ex s).state ∧
    coNull (reset_daily_counters s today) := by
  refine ⟨by simp [coNull, initState], ?_, coNull_buy cfg ex s today h,
    coNull_sell ex s h, ?_, coNull_reset s today h⟩
  · exact coNull_body cfg ex (reset_daily_counters s today) today (coNull_reset s today h)
  · unfold close_all_positions
    split_ifs with hp
    · exact coNull_sell ex s h
    · exact h

/-- Witness for C6 at the initial state and a fully successful
connector tick. -/
theorem co_null_preserved_witness :
    coNull initState ∧
    coNull (run_trading_cycle cfg0 ex_ok initState 0).state ∧
    coNull (execute_buy cfg0 ex_ok initState 0).state ∧
    coNull (execute_sell ex_ok initState).state ∧
    coNull (close_all_positions ex_ok initState).state ∧
    coNull (reset_daily_counters initState 0) :=
  co_null_preserved cfg0 ex_ok initState 0 (by simp [coNull, initState])

/-- Claim C7: starting under the cap, `daily_trades ≤ max_daily_trades`
is preserved; `execute_buy` refuses to proceed at the cap (no order,
no mutation), increments the counter by exactly 1 only on a successful
entry, and `execute_sell` and `close_all_positions` never modify the
counter. -/
theorem daily_cap_preserved (cfg : Config) (ex : Exchange) (s : TradingState) (today : ℤ)
    (h : s.daily_trades ≤ cfg.max_daily_trades) :
    (execute_buy cfg ex s today).state.daily_trades ≤ cfg.max_daily_trades ∧
    (cfg.max_daily_trades ≤ s.daily_trades → execute_buy cfg ex s today = ⟨s, [], false⟩) ∧
    ((execute_buy cfg ex s today).state = s ∨
      ((execute_buy cfg ex s today).state.daily_trades = s.daily_trades + 1 ∧
        (execute_buy cfg ex s today).state.in_position = true ∧
        (execute_buy cfg ex s today).raised = false)) ∧
    (execute_sell ex s).state.daily_trades = s.daily_trades ∧
    (close_all_positions ex s).state.daily_trades = s.daily_trades ∧
    (run_trading_cycle cfg ex s today).state.daily_trades ≤ cfg.max_daily_trades := by
  refine ⟨buy_daily_le cfg ex s today h, ?_, ?_, sell_daily_eq ex s, ?_, ?_⟩
  · intro hge
    unfold execute_buy
    by_cases hp : s.in_position = true
    · rw [if_pos hp]
    · rw [if_neg hp, if_pos hge]
  · rcases buy_cases cfg ex s today with heq | ⟨h1, _⟩ | ⟨amt, p, _, _, _, _, _, _, heq⟩
    · exact Or.inl (by rw [heq])
    · exact Or.inl h1
    · exact Or.inr ⟨by rw [heq], by rw [heq], by rw [heq]⟩
  · unfold close_all_positions
    split_ifs with hp
    · exact sell_daily_eq ex s
    · rfl
  · unfold run_trading_cycle
    have hr : (reset_daily_counters s today).daily_trades ≤ cfg.max_daily_trades := by
      unfold reset_daily_counters
      split_ifs
      · exact Nat.zero_le _
      · exact h
    unfold cycle_body
    cases ex.fetch_ohlcv with
    | none => exact hr
    | some df =>
      dsimp only
      split_ifs <;>
        first
          | exact hr
          | exact le_trans (le_of_eq (sell_daily_eq ex _)) hr
          | exact buy_daily_le cfg ex _ today hr

/-- Witness for C7 at the initial state (counter 0, cap 3) and at a
state sitting exactly at the cap. -/
theorem daily_cap_preserved_witness :
    (initState.daily_trades ≤ cfg0.max_daily_trades ∧
      (execute_buy cfg0 ex_ok initState 0).state.daily_trades ≤ cfg0.max_daily_trades) ∧
    (cfg0.max_daily_trades ≤ 3 ∧
      execute_buy cfg0 ex_ok
        { initState with daily_trades := 3 } 0 =
          ⟨{ initState with daily_trades := 3 }, [], false⟩) :=
  ⟨⟨by decide, (daily_cap_preserved cfg0 ex_ok initState 0 (by decide)).1⟩,
   ⟨by decide,
    (daily_cap_preserved cfg0 ex_ok { initState with daily_trades := 3 } 0
      (by decide)).2.1 (by decide)⟩⟩

/-- Claim C2 counterexample: `df50` has 50 rows — fewer than 51 — yet
`check_buy_signals` fires on it, because the guard in the code is
`len(df) < 50`, not `len(df) < 51`. -/
theorem short_history_claim_counterexample :
    df50.length < 51 ∧ check_buy_signals df50 = true := by
  refine ⟨by decide, ?_⟩
  norm_num [check_buy_signals, df50, lastTwo, row_flat, row_fire, buy_signal_count,
    buy_ema_crossover, buy_rsi_condition, buy_macd_crossover, buy_bollinger_support,
    List.replicate]

/-- Claim C2 (amended): for every candle sequence with fewer than 50
entries, both detectors return false unconditionally, regardless of the
indicator values and the position state. -/
theorem short_history_no_signal (cfg : Config) (s : TradingState) (df : List Row)
    (h : df.length < 50) :
    check_buy_signals df = false ∧ check_sell_signals cfg s df = false := by
  unfold check_buy_signals check_sell_signals
  rw [if_pos h, if_pos (Or.inl h)]
  exact ⟨rfl, rfl⟩

/-- Witness for the amended C2 on the empty candle sequence. -/
theorem short_history_no_signal_witness :
    ([] : List Row).length < 50 ∧
    check_buy_signals [] = false ∧ check_sell_signals cfg0 s_long [] = false :=
  ⟨by decide, short_history_no_signal cfg0 s_long [] (by decide)⟩

/-- Claim C3: with enough history, an open position and a (nonzero)
entry price, the take-profit condition — evaluated first — and the
stop-loss condition each force `check_sell_signals` to true regardless
of the four technical vote conditions. -/
theorem overrides_short_circuit (cfg : Config) (s : TradingState) (df : List Row)
    (prev last : Row) (p : ℚ)
    (hlen : 50 ≤ df.length) (hpos : s.in_position = true)
    (hep : s.entry_price = some p) (hp : p ≠ 0)
    (hlt : lastTwo df = some (prev, last)) :
    (p * (1 + cfg.take_profit_pct) ≤ last.close → check_sell_signals cfg s df = true) ∧
    (last.close ≤ p * (1 - cfg.stop_loss_pct) → check_sell_signals cfg s df = true) := by
  rw [check_sell_eq cfg s df prev last hlen hpos hlt, hep]
  have htr : priceTruthy (some p) = true := by simp [priceTruthy, hp]
  constructor
  · intro htp
    simp [htr, htp]
  · intro hsl
    simp [htr, hsl]

/-- Witness for C3: entered at 100 under `cfg0`, a latest close of 103
triggers the take-profit exit and a latest close of 99 the stop-loss
exit, with the technical vote not satisfied on either DataFrame. -/
theorem overrides_short_circuit_witness :
    check_sell_signals cfg0 s_long df_tp = true ∧
    check_sell_signals cfg0 s_long df_sl = true := by
  constructor
  · exact (overrides_short_circuit cfg0 s_long df_tp row_flat
      { row_flat with close := 103 } 100 (by decide) rfl rfl (by norm_num) rfl).1
      (by norm_num [cfg0, row_flat])
  · exact (overrides_short_circuit cfg0 s_long df_sl row_flat
      { row_flat with close := 99 } 100 (by decide) rfl rfl (by norm_num) rfl).2
      (by norm_num [cfg0, row_flat])

/-- Claim C4: with enough history the buy signal fires iff at least 2
of the 4 conditions hold on the last two rows: it is false with 0 or 1
of them true and true with 2, 3 or 4. -/
theorem buy_vote_threshold (df : List Row) (prev last : Row)
    (hlen : 50 ≤ df.length) (hlt : lastTwo df = some (prev, last)) :
    check_buy_signals df = true ↔
      2 ≤ ((if prev.ema20 ≤ prev.ema50 ∧ last.ema20 > last.ema50 then 1 else 0)
        + (if prev.rsi ≤ 30 ∧ last.rsi > 30 then 1 else 0)
        + (if prev.macd ≤ prev.macd_signal ∧ last.macd > last.macd_signal then 1 else 0)
        + (if last.close ≤ last.bb_low * (101 / 100) then 1 else 0) : ℕ) := by
  rw [check_buy_eq df prev last hlen hlt, decide_eq_true_eq]
  have hsum : buy_signal_count prev last =
      ((if prev.ema20 ≤ prev.ema50 ∧ last.ema20 > last.ema50 then 1 else 0)
        + (if prev.rsi ≤ 30 ∧ last.rsi > 30 then 1 else 0)
        + (if prev.macd ≤ prev.macd_signal ∧ last.macd > last.macd_signal then 1 else 0)
        + (if last.close ≤ last.bb_low * (101 / 100) then 1 else 0) : ℕ) := by
    unfold buy_signal_count buy_ema_crossover buy_rsi_condition buy_macd_crossover
      buy_bollinger_support
    by_cases h1 : prev.ema20 ≤ prev.ema50 ∧ last.ema20 > last.ema50 <;>
      by_cases h2 : prev.rsi ≤ 30 ∧ last.rsi > 30 <;>
        by_cases h3 : prev.macd ≤ prev.macd_signal ∧ last.macd > last.macd_signal <;>
          by_cases h4 : last.close ≤ last.bb_low * (101 / 100) <;>
            simp [h1, h2, h3, h4]
  rw [hsum]

/-- Witness for C4 on `df50`, whose last two rows satisfy exactly the
RSI and Bollinger conditions. -/
theorem buy_vote_threshold_witness :
    check_buy_signals df50 = true ↔
      2 ≤ ((if row_flat.ema20 ≤ row_flat.ema50 ∧ row_fire.ema20 > row_fire.ema50
            then 1 else 0)
        + (if row_flat.rsi ≤ 30 ∧ row_fire.rsi > 30 then 1 else 0)
        + (if row_flat.macd ≤ row_flat.macd_signal ∧ row_fire.macd > row_fire.macd_signal
            then 1 else 0)
        + (if row_fire.close ≤ row_fire.bb_low * (101 / 100) then 1 else 0) : ℕ) :=
  buy_vote_threshold df50 row_flat row_fire (by decide) rfl

/-- Claim C5: on an entry attempt with positive free quote balance and
a quoted price p, the requested notional is balance x risk_per_trade x
leverage, clamped up to exactly 10 iff it is below 10 and the balance
is at least 10; if the clamped notional is still below 10 or p ≤ 0 the
entry is rejected with no order and no mutation; otherwise the market
buy order carries the notional and a successful submission records
position_size = round6(notional / p). -/
theorem buy_sizing_spec (cfg : Config) (ex : Exchange) (s : TradingState) (today : ℤ)
    (bal : Balance) (p : ℚ)
    (hpos : s.in_position = false) (hcap : s.daily_trades < cfg.max_daily_trades)
    (hbal : ex.fetch_balance = some bal) (hb0 : 0 < usdtBalance bal)
    (htick : ex.fetch_ticker = some p) :
    sized_notional cfg (usdtBalance bal) =
      (if usdtBalance bal * cfg.risk_per_trade * cfg.leverage < 10 ∧ 10 ≤ usdtBalance bal
       then 10 else usdtBalance bal * cfg.risk_per_trade * cfg.leverage) ∧
    (sized_notional cfg (usdtBalance bal) < 10 ∨ p ≤ 0 →
      execute_buy cfg ex s today = ⟨s, [], false⟩) ∧
    (¬ (sized_notional cfg (usdtBalance bal) < 10 ∨ p ≤ 0) →
      (execute_buy cfg ex s today).orders =
        [⟨Side.buy, sized_notional cfg (usdtBalance bal)⟩] ∧
      ((ex.create_market_buy_order (sized_notional cfg (usdtBalance bal))).isSome = true →
        (execute_buy cfg ex s today).state.in_position = true ∧
        (execute_buy cfg ex s today).state.entry_price = some p ∧
        (execute_buy cfg ex s today).state.position_size =
          some (round6 (sized_notional cfg (usdtBalance bal) / p)))) := by
  have heq := execute_buy_eq cfg ex s today bal p hpos hcap hbal hb0 htick
  refine ⟨sized_notional_eq cfg (usdtBalance bal), ?_, ?_⟩
  · rintro (hsmall | hp0)
    · rw [heq]
      by_cases hp0 : p ≤ 0
      · rw [if_pos hp0]
      · rw [if_neg hp0, if_pos hsmall]
    · rw [heq, if_pos hp0]
  · intro hn
    rw [not_or] at hn
    obtain ⟨hsmall, hp0⟩ := hn
    rw [heq, if_neg hp0, if_neg hsmall]
    cases hord : ex.create_market_buy_order (sized_notional cfg (usdtBalance bal)) with
    | none =>
      refine ⟨rfl, ?_⟩
      intro hs
      simp at hs
    | some u =>
      exact ⟨rfl, fun _ => ⟨rfl, rfl, rfl⟩⟩

/-- Witness for C5: with 1000 USDT free under `cfg0` the notional is
150 and the entry is accepted with size round6(150 / 50000); with only
5 USDT free the notional is 3/4, cannot be clamped, and the entry is
rejected with no order. -/
theorem buy_sizing_spec_witness :
    ((execute_buy cfg0 ex_ok initState 0).orders =
        [⟨Side.buy, sized_notional cfg0 (usdtBalance bal_ok)⟩] ∧
      ((ex_ok.create_market_buy_order (sized_notional cfg0 (usdtBalance bal_ok))).isSome =
          true →
        (execute_buy cfg0 ex_ok initState 0).state.in_position = true ∧
        (execute_buy cfg0 ex_ok initState 0).state.entry_price = some 50000 ∧
        (execute_buy cfg0 ex_ok initState 0).state.position_size =
          some (round6 (sized_notional cfg0 (usdtBalance bal_ok) / 50000)))) ∧
    execute_buy cfg0 ex_small initState 0 = ⟨initState, [], false⟩ := by
  constructor
  · exact (buy_sizing_spec cfg0 ex_ok initState 0 bal_ok 50000 rfl (by decide) rfl
      (by norm_num [bal_ok, usdtBalance]) rfl).2.2
      (by norm_num [sized_notional, min_position_size, cfg0, bal_ok, usdtBalance])
  · exact (buy_sizing_spec cfg0 ex_small initState 0 bal_small 50000 rfl (by decide) rfl
      (by norm_num [bal_small, usdtBalance]) rfl).2.1
      (Or.inl (by norm_num [sized_notional, min_position_size, cfg0, bal_small, usdtBalance]))

/-- Claim C8: the daily counter reset runs before any signal evaluation
on every tick (the cycle equals the tick body on the reset state, and
rerunning the cycle on the reset state changes nothing), and
`reset_daily_counters` zeroes `daily_trades` and stamps today exactly
when the stored date differs from today, leaving everything unchanged
otherwise. -/
theorem reset_runs_first (cfg : Config) (ex : Exchange) (s : TradingState) (today : ℤ) :
    run_trading_cycle cfg ex s today =
      cycle_body cfg ex (reset_daily_counters s today) today ∧
    run_trading_cycle cfg ex s today =
      run_trading_cycle cfg ex (reset_daily_counters s today) today ∧
    (s.last_trade_date ≠ some today →
      reset_daily_counters s today =
        { s with daily_trades := 0, last_trade_date := some today }) ∧
    (s.last_trade_date = some today → reset_daily_counters s today = s) := by
  refine ⟨rfl, ?_, ?_, ?_⟩
  · unfold run_trading_cycle
    rw [reset_idem]
  · intro h
    unfold reset_daily_counters
    rw [if_pos h]
  · intro h
    unfold reset_daily_counters
    rw [if_neg (not_not_intro h)]

/-- Witness for C8: `s_long` stamped on day 0 is reset on day 1 and
untouched on another tick of day 0. -/
theorem reset_runs_first_witness :
    (s_long.last_trade_date ≠ some 1 ∧
      reset_daily_counters s_long 1 =
        { s_long with daily_trades := 0, last_trade_date := some 1 }) ∧
    (s_long.last_trade_date = some 0 ∧ reset_daily_counters s_long 0 = s_long) :=
  ⟨⟨by decide, (reset_runs_first cfg0 ex_fail s_long 1).2.2.1 (by decide)⟩,
   ⟨rfl, (reset_runs_first cfg0 ex_fail s_long 0).2.2.2 rfl⟩⟩

/-- Claim C9: on an exit attempt while in position, the submitted sell
amount is min(recorded position size, live free BTC balance); a
non-positive minimum aborts with no order and no state change; on a
successful exit the realized P&L is amount x (exit price - entry price)
and the position fields are cleared. -/
theorem sell_reconciliation (ex : Exchange) (s : TradingState) (bal : Balance) (ps : ℚ)
    (hpos : s.in_position = true) (hps : s.position_size = some ps)
    (hbal : ex.fetch_balance = some bal) :
    (min ps (bal.btc_free.getD 0) ≤ 0 → execute_sell ex s = ⟨s, [], none, false⟩) ∧
    (0 < min ps (bal.btc_free.getD 0) →
      (execute_sell ex s).orders = [⟨Side.sell, min ps (bal.btc_free.getD 0)⟩] ∧
      (∀ price entry,
        ex.create_market_sell_order (min ps (bal.btc_free.getD 0)) = some () →
        ex.fetch_ticker = some price → s.entry_price = some entry → entry ≠ 0 →
        (execute_sell ex s).pnl_usd =
          some (min ps (bal.btc_free.getD 0) * (price - entry)) ∧
        (execute_sell ex s).state.in_position = false ∧
        (execute_sell ex s).state.entry_price = none ∧
        (execute_sell ex s).state.position_size = none)) := by
  have heq := execute_sell_eq ex s bal ps hpos hps hbal
  constructor
  · intro h0
    rw [heq, if_pos h0]
  · intro h0
    rw [heq, if_neg (not_le.mpr h0)]
    constructor
    · cases hord : ex.create_market_sell_order (min ps (bal.btc_free.getD 0)) with
      | none => rfl
      | some u =>
        cases htick : ex.fetch_ticker with
        | none => rfl
        | some price => rfl
    · intro price entry hord htick hep hz
      rw [hord]
      dsimp only
      rw [htick]
      dsimp only
      rw [hep]
      simp [priceTruthy, hz]

/-- Witness for C9 at the spec example: recorded 0.01 BTC, free 0.008
BTC, so 0.008 is sold; exit at 50000 from entry 100 realizes
0.008 x (50000 - 100). -/
theorem sell_reconciliation_witness :
    (execute_sell ex_ok s_long).orders = [⟨Side.sell, 8 / 1000⟩] ∧
    (execute_sell ex_ok s_long).pnl_usd = some ((8 / 1000) * (50000 - 100)) ∧
    (execute_sell ex_ok s_long).state.in_position = false := by
  have hmin : min (1 / 100 : ℚ) (bal_ok.btc_free.getD 0) = 8 / 1000 := by
    norm_num [bal_ok]
  obtain ⟨horders, hrest⟩ :=
    (sell_reconciliation ex_ok s_long bal_ok (1 / 100) rfl rfl rfl).2
      (by norm_num [bal_ok])
  obtain ⟨hpnl, hclear, -, -⟩ := hrest 50000 100 rfl rfl rfl (by norm_num)
  refine ⟨?_, ?_, hclear⟩
  · rw [horders, hmin]
  · rw [hpnl, hmin]

/-- Claim C10: in `execute_sell` the exit-price `fetch_ticker` call
happens only after the sell order submission, so when the submission
succeeds and the ticker fetch then raises, the handler leaves
`in_position`, `entry_price` and `position_size` marking an open
position even though the sell order went out to the exchange. -/
theorem sold_but_marked_open :
    (execute_sell ex_ticker_fail s_long).orders = [⟨Side.sell, 8 / 1000⟩] ∧
    ex_ticker_fail.create_market_sell_order (8 / 1000) = some () ∧
    ex_ticker_fail.fetch_ticker = none ∧
    (execute_sell ex_ticker_fail s_long).raised = true ∧
    (execute_sell ex_ticker_fail s_long).state = s_long ∧
    s_long.in_position = true ∧
    s_long.entry_price = some 100 ∧
    s_long.position_size = some (1 / 100) := by
  have heq : execute_sell ex_ticker_fail s_long =
      ⟨s_long, [⟨Side.sell, 8 / 1000⟩], none, true⟩ := by
    norm_num [execute_sell, ex_ticker_fail, bal_ok, s_long]
  rw [heq]
  exact ⟨rfl, rfl, rfl, rfl, rfl, rfl, rfl, rfl⟩

end TradingBot
